import Mathlib

/-!
Verification of the pLp (PDF Literature Processor) VS Code extension shim.

The repository consists of `src/extension.ts` (the editor shim) and
`package.json` (the contributed commands and configuration schema).
This file gives a shallow embedding of the shim: its command handlers are
modelled as pure functions from their inputs (configuration snapshot,
selected target, dialog outcome) to the list of observable effects they
perform (process spawns, configuration updates, user-facing messages).
Node library calls (path.join, path.resolve, path.dirname, String.replace,
child_process.spawn) are modelled by small POSIX-style functions noted below.
The external Python core (`src/python/pdf_processor.py`) is not part of the
repository sources; the one component of it that is verified here (the
citation resolver fallback) is modelled from the specification text and
marked as such.
-/

namespace PLP

/-- Observable effects performed by the extension shim. -/
inductive Effect where
  | spawn (cmd : String) (args : List String) (cwd : String)
  | configUpdate (key value : String)
  | showInfo (msg : String)
  | showError (msg : String)
deriving DecidableEq, Repr

/-- JavaScript truthiness for an optional string configuration value:
`undefined` and the empty string are falsy, every other string is truthy.
This models the `if (x)` and `x || y` tests in `extension.ts`. -/
def jsTruthy : Option String → Bool
  | none => false
  | some s => !(s == "")

/-- The JavaScript `x || fallback` idiom on an optional string value. -/
def jsOr (o : Option String) (fallback : String) : String :=
  match o with
  | none => fallback
  | some s => if s == "" then fallback else s

/-- JavaScript `String.prototype.startsWith` (a plain prefix test),
modelled on the character list of the string. -/
def jsStartsWith (s pat : String) : Bool :=
  pat.data.isPrefixOf s.data

/-- ECMAScript whitespace for `String.prototype.trim` (the characters the
shim's chunks can contain). -/
def isJsWhitespace (c : Char) : Bool :=
  c == ' ' || c == '\t' || c == '\n' || c == '\r' || c == '\x0b' || c == '\x0c'

/-- JavaScript `String.prototype.trim`: strip whitespace from both ends. -/
def jsTrim (s : String) : String :=
  ⟨((s.data.dropWhile isJsWhitespace).reverse.dropWhile isJsWhitespace).reverse⟩

/-- First-occurrence replacement on character lists: the semantics of
JavaScript `String.prototype.replace` with a string pattern, which replaces
only the first occurrence of the pattern. -/
def replaceFirstL (s pat rep : List Char) : List Char :=
  match s with
  | [] => if pat.isEmpty then rep else []
  | c :: rest =>
    if pat.isPrefixOf (c :: rest) then rep ++ (c :: rest).drop pat.length
    else c :: replaceFirstL rest pat rep

/-- JavaScript `s.replace(pat, rep)` with a string pattern: replaces the
first occurrence of `pat` in `s` by `rep`. -/
def jsReplaceFirst (s pat rep : String) : String :=
  ⟨replaceFirstL s.data pat.data rep.data⟩

/-- The string `s` with its first `n` characters removed. Used to state what
prefix-stripping amounts to. -/
def stripPrefixN (s : String) (n : Nat) : String :=
  ⟨s.data.drop n⟩

/-- Model of Node `path.join(base, parts...)` for POSIX paths: components
joined with a slash (normalization of duplicate separators is elided; the
shim only joins clean literal components). -/
def pathJoin (base : String) (parts : List String) : String :=
  parts.foldl (fun acc p => acc ++ "/" ++ p) base

/-- Model of Node `path.resolve(p)` from a current working directory `cwd`:
an absolute path is returned as is, a relative path is resolved against
`cwd` (segment normalization of `.` and `..` is elided). -/
def pathResolve (cwd p : String) : String :=
  if jsStartsWith p "/" then p else cwd ++ "/" ++ p

/-- Splitting a character list at every occurrence of a separator
character (an empty input yields one empty component, like
`String.splitOn`). -/
def splitOnCharL (sep : Char) (s : List Char) : List (List Char) :=
  match s with
  | [] => [[]]
  | c :: rest =>
    let r := splitOnCharL sep rest
    if c == sep then [] :: r
    else
      match r with
      | [] => [[c]]
      | comp :: more => (c :: comp) :: more

/-- Joining path components with a slash. -/
def joinWithSlash : List String → String
  | [] => ""
  | [x] => x
  | x :: y :: xs => x ++ "/" ++ joinWithSlash (y :: xs)

/-- Model of Node `path.dirname` for POSIX paths: everything before the last
slash; a path with no slash has dirname `.`, and a top-level entry has
dirname `/`. -/
def pathDirname (p : String) : String :=
  let comps := (splitOnCharL '/' p.data).map (fun l => (⟨l⟩ : String))
  if comps.length ≤ 1 then "."
  else
    let front := comps.dropLast
    if front.all (fun c => c == "") then "/"
    else joinWithSlash front

/-- The configuration snapshot read via
`vscode.workspace.getConfiguration('pdfProcessor')`. Each field is the value
the lookup returns for that key (`none` when the key yields nothing). -/
structure Config where
  outputPath : Option String
  bibtexPath : Option String
  templatePath : Option String
  validateWritePermission : Bool
  openaiApiKey : Option String
  pythonPath : Option String
deriving DecidableEq, Repr

/-- The configuration keys declared under `contributes.configuration` in
`package.json` (lines 58-92), in declaration order. -/
def recognizedConfigOptions : List String :=
  ["outputPath", "bibtexPath", "templatePath",
   "validateWritePermission", "openaiApiKey", "pythonPath"]

/-- The configuration keys `processPDF` reads (extension.ts lines 126-146). -/
def processPDFConfigReads : List String :=
  ["openaiApiKey", "templatePath", "pythonPath"]

/-- The configuration key the single-file command handler reads
(extension.ts line 34). -/
def processFileConfigReads : List String := ["outputPath"]

/-- The configuration key the folder command handler reads
(extension.ts line 62). -/
def processFolderConfigReads : List String := ["outputPath"]

/-- The command identifiers registered by `activate`
(extension.ts lines 15, 44, 72, 89, 105), in registration order. -/
def activateRegisteredCommands : List String :=
  ["pdfProcessor.processFile", "pdfProcessor.processFolder",
   "pdfProcessor.selectTemplatePath", "pdfProcessor.selectOutputPath",
   "pdfProcessor.selectBibtexPath"]

/-- `path.join(context.extensionPath, 'src', 'python', 'pdf_processor.py')`
(extension.ts line 130). -/
def pythonScriptPath (extensionPath : String) : String :=
  pathJoin extensionPath ["src", "python", "pdf_processor.py"]

/-- Output-path tilde expansion and resolution (extension.ts lines 132-136):
a path starting with `~` has its first `~` replaced by the home directory
(JavaScript `replace` replaces the first occurrence), then the path is
resolved to absolute. -/
def resolveOutputPath (home cwd outputPath : String) : String :=
  let p :=
    if jsStartsWith outputPath "~" then jsReplaceFirst outputPath "~" home
    else outputPath
  pathResolve cwd p

/-- The argument list built by `processPDF` (extension.ts lines 138-145):
`[script, pdfPath, '-o', outputPath]`, then `-k <apiKey>` pushed when the
API key is truthy, then `-t <templatePath>` pushed when the template path is
truthy. -/
def buildArgs (pythonScript pdfPath outputPath : String)
    (apiKey templatePath : Option String) : List String :=
  let args := [pythonScript, pdfPath, "-o", outputPath]
  let args := if jsTruthy apiKey then args ++ ["-k", apiKey.getD ""] else args
  if jsTruthy templatePath then args ++ ["-t", templatePath.getD ""] else args

/-- The `processPDF` function (extension.ts lines 125-157) up to the spawn:
reads `openaiApiKey`, `templatePath` and `pythonPath` from configuration,
expands and resolves the output path, builds the argument list, and spawns
the interpreter once with cwd `context.extensionPath`. -/
def processPDF (cfg : Config) (extensionPath home cwd pdfPath outputPath : String) :
    List Effect :=
  let script := pythonScriptPath extensionPath
  let out := resolveOutputPath home cwd outputPath
  let args := buildArgs script pdfPath out cfg.openaiApiKey cfg.templatePath
  let interpreter := jsOr cfg.pythonPath "python"
  [Effect.spawn interpreter args extensionPath]

/-- Output directory used by the single-file command (extension.ts
lines 34-35): the configured `outputPath` when truthy, else the directory
containing the selected PDF. -/
def fileCommandOutputDir (cfg : Config) (pdfPath : String) : String :=
  jsOr cfg.outputPath (pathDirname pdfPath)

/-- Output directory used by the folder command (extension.ts line 62): the
configured `outputPath` when truthy, else the selected folder itself. -/
def folderCommandOutputDir (cfg : Config) (folderPath : String) : String :=
  jsOr cfg.outputPath folderPath

/-- The `pdfProcessor.processFile` command handler (extension.ts
lines 15-41): `uri` is the target the editor passed (none when invoked from
the palette), `dialogResult` the file the user picked in that case (none
when the dialog was dismissed). A dismissed dialog returns without effects;
otherwise the handler computes the output directory and runs `processPDF`. -/
def processFileCommand (cfg : Config) (extensionPath home cwd : String)
    (uri dialogResult : Option String) : List Effect :=
  match uri.orElse (fun _ => dialogResult) with
  | none => []
  | some pdfPath =>
    processPDF cfg extensionPath home cwd pdfPath (fileCommandOutputDir cfg pdfPath)

/-- The `processPDFFolder` function (extension.ts lines 186-188). Its body
is empty — only the comment "similar to single-file processing, but pass the
folder path" — so it performs no effects at all. -/
def processPDFFolder (folderPath outputPath : String) : List Effect :=
  let _ := folderPath
  let _ := outputPath
  []

/-- The `pdfProcessor.processFolder` command handler (extension.ts
lines 44-68): dialog handling as in the single-file command, then
`processPDFFolder` on the selected folder with the computed output
directory. -/
def processFolderCommand (cfg : Config) (uri dialogResult : Option String) :
    List Effect :=
  match uri.orElse (fun _ => dialogResult) with
  | none => []
  | some folderPath =>
    processPDFFolder folderPath (folderCommandOutputDir cfg folderPath)

/-- The `pdfProcessor.selectTemplatePath` command handler (extension.ts
lines 72-86): updates `templatePath` only when the dialog returned a file. -/
def selectTemplateCommand (dialogResult : Option String) : List Effect :=
  match dialogResult with
  | none => []
  | some p => [Effect.configUpdate "templatePath" p,
               Effect.showInfo ("Template set to: " ++ p)]

/-- The `pdfProcessor.selectOutputPath` command handler (extension.ts
lines 89-102): updates `outputPath` only when the dialog returned a folder. -/
def selectOutputCommand (dialogResult : Option String) : List Effect :=
  match dialogResult with
  | none => []
  | some p => [Effect.configUpdate "outputPath" p,
               Effect.showInfo ("Output path set to: " ++ p)]

/-- The `pdfProcessor.selectBibtexPath` command handler (extension.ts
lines 105-119): updates `bibtexPath` only when the dialog returned a file. -/
def selectBibtexCommand (dialogResult : Option String) : List Effect :=
  match dialogResult with
  | none => []
  | some p => [Effect.configUpdate "bibtexPath" p,
               Effect.showInfo ("Bibtex path set to: " ++ p)]

/-- The stdout data handler installed by `processPDF` (extension.ts
lines 159-167): a chunk is trimmed whole; a trimmed chunk starting with
`INFO:` is surfaced as one informational message with the first `INFO:`
replaced by nothing and the result trimmed; otherwise a trimmed chunk
starting with `ERROR:` is surfaced as one error message analogously; any
other chunk produces nothing. -/
def onStdoutData (data : String) : List Effect :=
  if jsStartsWith (jsTrim data) "INFO:" then
    [Effect.showInfo (jsTrim (jsReplaceFirst (jsTrim data) "INFO:" ""))]
  else if jsStartsWith (jsTrim data) "ERROR:" then
    [Effect.showError (jsTrim (jsReplaceFirst (jsTrim data) "ERROR:" ""))]
  else []

/-- Splitting a character list into lines at `'\n'` (used only to state the
line-by-line behavior the specification describes). -/
def splitLinesL (s : List Char) : List (List Char) :=
  splitOnCharL '\n' s

/-- The stdout handling as the specification describes it, written from the
spec words for comparison with `onStdoutData`: the chunk is read
line-by-line, and exactly the lines beginning with `INFO:` and `ERROR:` are
surfaced verbatim; every other line is ignored. -/
def claimC2Surfacing (data : String) : List Effect :=
  (splitLinesL data.data).flatMap (fun line =>
    if ("INFO:".data).isPrefixOf line then [Effect.showInfo ⟨line⟩]
    else if ("ERROR:".data).isPrefixOf line then [Effect.showError ⟨line⟩]
    else [])

/-- Whether an effect is a process spawn. -/
def isSpawn : Effect → Bool
  | Effect.spawn _ _ _ => true
  | _ => false

/-- The close handler installed by `processPDF` (extension.ts lines
175-182): exit code 0 resolves the promise (after a success message), any
other exit (including termination without a code, `null`) rejects with an
error carrying the code. -/
def onClose (code : Option Int) : List Effect × Except String Unit :=
  if code = some 0 then
    ([Effect.showInfo "PDF processed successfully!"], Except.ok ())
  else
    ([], Except.error
      ("Process failed with code " ++
        (match code with | none => "null" | some n => toString n)))

/-! ### Citation Resolver, modelled from the spec

The Python core (`src/python/pdf_processor.py`) is referenced by the shim
but is not among the repository sources; only the specification (§4.2)
describes the Citation Resolver. The definitions below are therefore
modelled from the spec, not translated from code. -/

/-- Modelled from the spec: confidence tiers of a citation resolution,
ordered `doi-exact > title-exact > title-guess > unresolved` (§3). -/
inductive Tier where
  | doiExact
  | titleExact
  | titleGuess
  | unresolved
deriving DecidableEq, Repr

/-- Modelled from the spec: a CitationCandidate (§3) — optional normalized
DOI and optional guessed title, produced by the Metadata Extractor. -/
structure CitationCandidate where
  doi : Option String
  titleGuess : Option String
deriving DecidableEq, Repr

/-- Modelled from the spec: the canonical fields of a BibtexRecord (§3)
that the resolver fills: title, authors, year, raw BibTeX text, the
confidence tier, and the unverified marker set by the language-model
fallback (§4.2 strategy 3). -/
structure BibtexRecord where
  title : String
  authors : List String
  year : Option Nat
  raw : String
  tier : Tier
  unverified : Bool
deriving DecidableEq, Repr

/-- Modelled from the spec: file metadata available without any network
(§4.2 final fallback builds the record "entirely from filename and file
metadata"). -/
structure FileMeta where
  filename : String
  modifiedYear : Option Nat
deriving DecidableEq, Repr

/-- Modelled from the spec: the bibliographic registry interface used by
strategies 1 and 2 of §4.2 — a DOI lookup (none for "not found" / no
network) and a fuzzy title lookup accepting only matches above the
similarity threshold (none when no acceptable match / no network). -/
structure Registry where
  doiLookup : String → Option BibtexRecord
  titleLookup : String → Option BibtexRecord

/-- Modelled from the spec: the language-model title-guesser of §4.2
strategy 3, available only when an API key is configured; from the
extracted text snippet it yields a best-guess title/author/year. -/
structure LlmGuesser where
  guess : String → String × List String × Option Nat

/-- Modelled from the spec: the minimal BibtexRecord built entirely from
filename and file metadata, tier `unresolved` (§4.2 final fallback). -/
def minimalRecord (meta : FileMeta) : BibtexRecord :=
  { title := meta.filename
    authors := []
    year := meta.modifiedYear
    raw := "@misc\x7b" ++ meta.filename ++ ", title=\x7b" ++ meta.filename ++ "\x7d\x7d"
    tier := Tier.unresolved
    unverified := true }

/-- Modelled from the spec: `resolve(candidate) -> BibtexRecord` (§4.2),
three strategies in strict priority order — DOI lookup, fuzzy title lookup,
language-model fallback when an API key is configured — and, when all three
fail, the minimal `unresolved` record; the resolver is total and never
aborts the item. -/
def resolve (reg : Registry) (llm : LlmGuesser) (apiKey : Option String)
    (textSnippet : String) (meta : FileMeta) (cand : CitationCandidate) :
    BibtexRecord :=
  match cand.doi.bind reg.doiLookup with
  | some rec => { rec with tier := Tier.doiExact }
  | none =>
    match cand.titleGuess.bind reg.titleLookup with
    | some rec => { rec with tier := Tier.titleExact }
    | none =>
      match apiKey with
      | some _ =>
        let g := llm.guess textSnippet
        { title := g.1
          authors := g.2.1
          year := g.2.2
          raw := "@misc\x7b" ++ g.1 ++ ", title=\x7b" ++ g.1 ++ "\x7d\x7d"
          tier := Tier.titleGuess
          unverified := true }
      | none => minimalRecord meta

/-! ### Helper lemmas -/

/-- When `pat` is a prefix of `s`, first-occurrence replacement replaces
exactly that leading occurrence. -/
theorem replaceFirstL_of_isPrefixOf (s pat rep : List Char)
    (h : pat.isPrefixOf s = true) :
    replaceFirstL s pat rep = rep ++ s.drop pat.length := by
  cases s with
  | nil =>
    have hp : pat = [] := by
      cases pat with
      | nil => rfl
      | cons a t => simp [List.isPrefixOf] at h
    subst hp
    simp [replaceFirstL]
  | cons c rest =>
    simp only [replaceFirstL, h, if_true]

/-- `jsReplaceFirst` on a string that starts with the pattern strips the
pattern and prepends the replacement. -/
theorem jsReplaceFirst_of_startsWith (s pat rep : String)
    (h : jsStartsWith s pat = true) :
    jsReplaceFirst s pat rep = ⟨rep.data ++ s.data.drop pat.data.length⟩ := by
  have hp : pat.data.isPrefixOf s.data = true := h
  unfold jsReplaceFirst
  rw [replaceFirstL_of_isPrefixOf s.data pat.data rep.data hp]

/-! ### Claims -/

/-- C1: the claim says the folder variant runs the single-file pipeline on
each PDF in the folder. The code's `processPDFFolder` has an empty body, so
the folder command performs no effects whatsoever — for every configuration
and every selected folder it spawns nothing and reports nothing. -/
theorem c1_folder_command_is_a_stub (cfg : Config)
    (uri dialogResult : Option String) :
    processFolderCommand cfg uri dialogResult = [] := by
  unfold processFolderCommand
  cases uri.orElse (fun _ => dialogResult) with
  | none => rfl
  | some folderPath => rfl

/-- C2, counterexample: on the chunk `"done\nINFO: saved note"` the code
surfaces nothing (the trimmed chunk does not start with `INFO:`), while the
claimed line-by-line verbatim protocol would surface the second line. -/
theorem c2_counterexample :
    onStdoutData "done\nINFO: saved note" ≠
      claimC2Surfacing "done\nINFO: saved note" := by decide

/-- C2, amended: the handler works on whole chunks, not lines, and not
verbatim — the chunk is trimmed; a trimmed chunk beginning with `INFO:`
(resp. otherwise with `ERROR:`) yields exactly one informational (resp.
error) message equal to the chunk with that prefix removed and trimmed
again; every other chunk yields nothing. -/
theorem c2_chunkwise_prefix_surfacing (d : String) :
    onStdoutData d =
      (if jsStartsWith (jsTrim d) "INFO:" then
        [Effect.showInfo (jsTrim (stripPrefixN (jsTrim d) ("INFO:".length)))]
      else if jsStartsWith (jsTrim d) "ERROR:" then
        [Effect.showError (jsTrim (stripPrefixN (jsTrim d) ("ERROR:".length)))]
      else []) := by
  unfold onStdoutData
  by_cases h1 : jsStartsWith (jsTrim d) "INFO:" = true
  · rw [if_pos h1, if_pos h1, jsReplaceFirst_of_startsWith _ _ _ h1]
    rfl
  · by_cases h2 : jsStartsWith (jsTrim d) "ERROR:" = true
    · rw [if_neg h1, if_neg h1, if_pos h2, if_pos h2,
        jsReplaceFirst_of_startsWith _ _ _ h2]
      rfl
    · rw [if_neg h1, if_neg h1, if_neg h2, if_neg h2]

/-- C3: `processPDF` spawns the interpreter with exactly the argument list
`<script> <pdfPath> -o <outputDir>`, followed by `-k <apiKey>` exactly when
the configured API key is truthy and `-t <templatePath>` exactly when the
configured template path is truthy, and nothing else. -/
theorem c3_spawn_argument_shape (cfg : Config)
    (ext home cwd pdf out0 : String) :
    processPDF cfg ext home cwd pdf out0 =
      [Effect.spawn (jsOr cfg.pythonPath "python")
        ([pythonScriptPath ext, pdf, "-o", resolveOutputPath home cwd out0]
          ++ (if jsTruthy cfg.openaiApiKey then
                ["-k", cfg.openaiApiKey.getD ""] else [])
          ++ (if jsTruthy cfg.templatePath then
                ["-t", cfg.templatePath.getD ""] else []))
        ext] := by
  unfold processPDF buildArgs
  by_cases h1 : jsTruthy cfg.openaiApiKey = true <;>
    by_cases h2 : jsTruthy cfg.templatePath = true <;>
      simp [h1, h2]

/-- C4: the close handler treats exit code 0 as overall success (resolving,
with a success message, regardless of any `ERROR:` lines surfaced earlier —
the handler inspects only the code) and rejects every non-zero exit code
with an error carrying that code. -/
theorem c4_exit_code_handling (code : Int) (h : code ≠ 0) :
    (onClose (some 0)).2 = Except.ok () ∧
    (onClose (some 0)).1 = [Effect.showInfo "PDF processed successfully!"] ∧
    (onClose (some code)).2 =
      Except.error ("Process failed with code " ++ toString code) := by
  refine ⟨rfl, rfl, ?_⟩
  unfold onClose
  rw [if_neg]
  simp [h]

/-- C4 witness: exit code 1 is rejected with the code in the message, and
exit code 0 resolves. -/
theorem c4_exit_code_handling_witness :
    (onClose (some 0)).2 = Except.ok () ∧
    (onClose (some 1)).2 =
      Except.error ("Process failed with code " ++ toString (1 : Int)) :=
  ⟨(c4_exit_code_handling 1 (by decide)).1,
   (c4_exit_code_handling 1 (by decide)).2.2⟩

/-- C5: the recognized configuration is exactly output path, bibliography
path, template path, validate-write-permission flag, API key and
interpreter path, and every configuration key the processing command
handlers and `processPDF` read is among the recognized options. -/
theorem c5_recognized_configuration :
    recognizedConfigOptions =
      ["outputPath", "bibtexPath", "templatePath",
       "validateWritePermission", "openaiApiKey", "pythonPath"] ∧
    (processFileConfigReads ++ processFolderConfigReads ++
        processPDFConfigReads).all
      (fun k => recognizedConfigOptions.contains k) = true := by
  decide

/-- C6: `activate` registers exactly the five commands (single PDF, folder,
template, output, bibliography selection), and an invocation of the
single-file command with a selected PDF spawns exactly one interpreter
process, obtained from the configuration snapshot by resolving the output
path and running `processPDF`. -/
theorem c6_activation_and_single_spawn (cfg : Config)
    (ext home cwd pdf : String) (dialogResult : Option String) :
    activateRegisteredCommands =
      ["pdfProcessor.processFile", "pdfProcessor.processFolder",
       "pdfProcessor.selectTemplatePath", "pdfProcessor.selectOutputPath",
       "pdfProcessor.selectBibtexPath"] ∧
    ((processFileCommand cfg ext home cwd (some pdf) dialogResult).filter
        isSpawn).length = 1 ∧
    processFileCommand cfg ext home cwd (some pdf) dialogResult =
      processPDF cfg ext home cwd pdf (fileCommandOutputDir cfg pdf) := by
  refine ⟨rfl, ?_, rfl⟩
  simp [processFileCommand, processPDF, isSpawn, Option.orElse]

/-- C7 (citation resolver modelled from the spec): when the DOI lookup and
the title lookup both fail and no API key is configured, `resolve` still
succeeds, returning exactly the minimal record built from filename and file
metadata, with tier `unresolved`. -/
theorem c7_resolver_unresolved_fallback (reg : Registry) (llm : LlmGuesser)
    (snippet : String) (meta : FileMeta) (cand : CitationCandidate)
    (h1 : cand.doi.bind reg.doiLookup = none)
    (h2 : cand.titleGuess.bind reg.titleLookup = none) :
    resolve reg llm none snippet meta cand = minimalRecord meta ∧
    (resolve reg llm none snippet meta cand).tier = Tier.unresolved := by
  unfold resolve
  rw [h1, h2]
  exact ⟨rfl, rfl⟩

/-- C7 witness: a registry with no matches, no API key, and a candidate
carrying a DOI and a title guess still resolve to the `unresolved` minimal
record. -/
theorem c7_resolver_unresolved_fallback_witness :
    resolve ⟨fun _ => none, fun _ => none⟩ ⟨fun s => (s, [], none)⟩ none
        "snippet text" ⟨"paper.pdf", some 2020⟩
        ⟨some "10.1000/xyz123", some "Example Paper"⟩ =
      minimalRecord ⟨"paper.pdf", some 2020⟩ ∧
    (resolve ⟨fun _ => none, fun _ => none⟩ ⟨fun s => (s, [], none)⟩ none
        "snippet text" ⟨"paper.pdf", some 2020⟩
        ⟨some "10.1000/xyz123", some "Example Paper"⟩).tier =
      Tier.unresolved :=
  c7_resolver_unresolved_fallback ⟨fun _ => none, fun _ => none⟩
    ⟨fun s => (s, [], none)⟩ "snippet text" ⟨"paper.pdf", some 2020⟩
    ⟨some "10.1000/xyz123", some "Example Paper"⟩ rfl rfl

/-- C8: when the configured output path is absent or empty, the single-file
command uses the directory containing the selected PDF as output directory,
and the folder command uses the selected folder itself. -/
theorem c8_default_output_dirs (cfg : Config) (pdf folder : String)
    (h : cfg.outputPath = none ∨ cfg.outputPath = some "") :
    fileCommandOutputDir cfg pdf = pathDirname pdf ∧
    folderCommandOutputDir cfg folder = folder := by
  rcases h with h | h <;>
    simp [fileCommandOutputDir, folderCommandOutputDir, jsOr, h]

/-- C8 witness: with no configured output path, `/docs/a.pdf` is processed
into `/docs` and the folder `/docs` into itself. -/
theorem c8_default_output_dirs_witness :
    (fileCommandOutputDir ⟨none, none, none, true, none, none⟩ "/docs/a.pdf" =
      pathDirname "/docs/a.pdf" ∧
    folderCommandOutputDir ⟨none, none, none, true, none, none⟩ "/docs" =
      "/docs") ∧
    pathDirname "/docs/a.pdf" = "/docs" :=
  ⟨c8_default_output_dirs ⟨none, none, none, true, none, none⟩ "/docs/a.pdf"
      "/docs" (Or.inl rfl),
   by decide⟩

/-- C9: an output path beginning with `~` has its first `~` replaced by the
home directory and is then resolved; a path not beginning with `~` is only
resolved, otherwise unchanged. -/
theorem c9_tilde_expansion (home cwd p : String) :
    (jsStartsWith p "~" = true →
      resolveOutputPath home cwd p =
        pathResolve cwd (home ++ stripPrefixN p 1)) ∧
    (jsStartsWith p "~" = false →
      resolveOutputPath home cwd p = pathResolve cwd p) := by
  constructor
  · intro h
    unfold resolveOutputPath
    rw [if_pos h, jsReplaceFirst_of_startsWith _ _ _ h]
    rfl
  · intro h
    unfold resolveOutputPath
    rw [if_neg]
    simp [h]

/-- C9 witness: `~/notes` expands to the home directory plus `/notes`
before resolution, and `/abs` is passed to resolution unchanged. -/
theorem c9_tilde_expansion_witness :
    (resolveOutputPath "/home/u" "/cwd" "~/notes" =
      pathResolve "/cwd" ("/home/u" ++ stripPrefixN "~/notes" 1) ∧
    resolveOutputPath "/home/u" "/cwd" "/abs" = pathResolve "/cwd" "/abs") ∧
    resolveOutputPath "/home/u" "/cwd" "~/notes" = "/home/u/notes" :=
  ⟨⟨(c9_tilde_expansion "/home/u" "/cwd" "~/notes").1 (by decide),
    (c9_tilde_expansion "/home/u" "/cwd" "/abs").2 (by decide)⟩,
   by decide⟩

/-- C10: every command invoked without a target whose selection dialog is
dismissed returns having produced no effects at all — in particular no
process spawn and no configuration update. -/
theorem c10_dismissed_dialogs_do_nothing (cfg : Config)
    (ext home cwd : String) :
    processFileCommand cfg ext home cwd none none = [] ∧
    processFolderCommand cfg none none = [] ∧
    selectTemplateCommand none = [] ∧
    selectOutputCommand none = [] ∧
    selectBibtexCommand none = [] :=
  ⟨rfl, rfl, rfl, rfl, rfl⟩

end PLP
